import Mathlib

/-!
Verification of the filter-and-aggregate engine of the social-media
dashboard (`src/app.py`).

The embedding follows the source:

* `transform_wide_to_long` (app.py lines 25-81): the Normalizer, turning
  wide rows into long-format `MetricRecord`s, one per (row x platform).
  A wide row is modelled as an association list from column label to cell
  value; a missing label raises a `KeyError`, modelled with `Except`.
* `update_dashboard` (app.py lines 745-903): filter application, KPI sums
  and per-platform performance cards.
* `platform_progress_card` (app.py lines 159-173): target tie-break,
  percentage and tier classification.
* `update_district_buttons` (app.py lines 686-697): district-code
  derivation.

Numeric cell values are modelled as rationals (the sheet's metric columns
are numeric; Python's `/` on them is exact enough to be modelled by `ℚ`).
-/

/-- One long-format record, as built by `transform_wide_to_long`
(app.py lines 69-78). -/
structure MetricRecord where
  month : String
  district : String
  platform : String
  total_posts : ℚ
  total_interactions : ℚ
  total_views : ℚ
  followers_gained : ℚ
  engagement_rate : ℚ
deriving Repr, DecidableEq

/-- The user's filter selection: district, month, platform, each either a
concrete value or the sentinel string "All". -/
structure FilterSelection where
  district : String
  month : String
  platform : String
deriving Repr, DecidableEq

/-- One wide row as delivered by the sheet: string-valued identity cells
(`Month`, `District  `) and numeric metric cells, both keyed by the exact
column label. Pandas row indexing `row[label]` raises `KeyError` when the
label is absent, hence the `Except`-returning accessors below. -/
structure RawWideRow where
  strCells : List (String × String)
  numCells : List (String × ℚ)
deriving Repr, DecidableEq

/-- First cell stored under `label`, if any (labels are unique in a sheet
header, so the order of the association list is immaterial). -/
def lookupCell {α : Type} : List (String × α) → String → Option α
  | [], _ => none
  | (k, v) :: rest, label => if k = label then some v else lookupCell rest label

/-- A found cell is its value; an absent one is the `KeyError` that pandas
raises for the label. -/
def cellToExcept {α : Type} (label : String) : Option α → Except String α
  | some v => Except.ok v
  | none => Except.error ("KeyError: " ++ label)

/-- Exception propagation: an error short-circuits, a value feeds the
continuation (Python's exception flow through the loop body). -/
def exBind {α β : Type} : Except String α → (α → Except String β) →
    Except String β
  | Except.error e, _ => Except.error e
  | Except.ok a, f => f a

@[simp]
theorem cellToExcept_some {α : Type} (label : String) (v : α) :
    cellToExcept label (some v) = Except.ok v := rfl

@[simp]
theorem cellToExcept_none {α : Type} (label : String) :
    cellToExcept label (none : Option α) =
      Except.error ("KeyError: " ++ label) := rfl

@[simp]
theorem exBind_ok {α β : Type} (a : α) (f : α → Except String β) :
    exBind (Except.ok a) f = f a := rfl

@[simp]
theorem exBind_error {α β : Type} (e : String) (f : α → Except String β) :
    exBind (Except.error e) f = Except.error e := rfl

/-- Reads `row[label]` for a string-valued cell: the value, or a `KeyError`. -/
def getStr (row : RawWideRow) (label : String) : Except String String :=
  cellToExcept label (lookupCell row.strCells label)

/-- Reads `row[label]` for a numeric cell: the value, or a `KeyError`. -/
def getNum (row : RawWideRow) (label : String) : Except String ℚ :=
  cellToExcept label (lookupCell row.numCells label)

/-- The four column labels of one platform's metric group, with the exact
trailing whitespace of the source (app.py lines 32-57). -/
structure PlatformCols where
  name : String
  posts : String
  interactions : String
  views : String
  followers : String
deriving Repr, DecidableEq

def facebookCols : PlatformCols :=
  { name := "Facebook"
    posts := "Facebook - Total Posts "
    interactions := "Facebook - Total Interactions "
    views := "Facebook - Total Views  "
    followers := "Facebook - Followers Gained  " }

def instagramCols : PlatformCols :=
  { name := "Instagram"
    posts := "Instagram - Total Posts  "
    interactions := "Instagram - Total Interactions  "
    views := "Instagram - Total Views  "
    followers := "Instagram - Followers Gained  " }

def youtubeCols : PlatformCols :=
  { name := "YouTube"
    posts := "YouTube - Total Posts  "
    interactions := "YouTube - Total Interactions  "
    views := "YouTube - Total Views  "
    followers := "YouTube - Followers Gained  " }

def whatsappCols : PlatformCols :=
  { name := "WhatsApp"
    posts := "WhatsApp - Total Posts  "
    interactions := "WhatsApp - Total Interactions  "
    views := "WhatsApp - Total Views  "
    followers := "WhatsApp - Followers Gained  " }

/-- The platform column groups, in the iteration order of the source's
`platform_columns` dict (Python dicts preserve insertion order). -/
def platform_columns : List PlatformCols :=
  [facebookCols, instagramCols, youtubeCols, whatsappCols]

/-- The body of the inner loop of `transform_wide_to_long` (app.py lines
60-78): read the four metric cells, compute the engagement rate, read the
identity cells, and build the record. Any missing label propagates as an
error, in the source's evaluation order. -/
def makeRecord (row : RawWideRow) (cols : PlatformCols) :
    Except String MetricRecord :=
  exBind (getNum row cols.posts) (fun posts =>
  exBind (getNum row cols.interactions) (fun interactions =>
  exBind (getNum row cols.views) (fun views =>
  exBind (getNum row cols.followers) (fun followers =>
  let engagement_rate : ℚ := if views > 0 then (interactions / views) * 100 else 0
  exBind (getStr row "Month") (fun month =>
  exBind (getStr row "District  ") (fun district =>
  Except.ok
    { month := month
      district := district
      platform := cols.name
      total_posts := posts
      total_interactions := interactions
      total_views := views
      followers_gained := followers
      engagement_rate := engagement_rate }))))))

/-- One iteration of the outer loop of `transform_wide_to_long`: the four
records a single wide row fans out to, in platform order. -/
def transformRow (row : RawWideRow) : Except String (List MetricRecord) :=
  exBind (makeRecord row facebookCols) (fun r1 =>
  exBind (makeRecord row instagramCols) (fun r2 =>
  exBind (makeRecord row youtubeCols) (fun r3 =>
  exBind (makeRecord row whatsappCols) (fun r4 =>
  Except.ok [r1, r2, r3, r4]))))

/-- The full `transform_wide_to_long` (app.py lines 25-81): fan every wide row out
to one record per fixed platform, appending in row-major order; the first
missing label aborts the whole transformation. -/
def transform_wide_to_long : List RawWideRow → Except String (List MetricRecord)
  | [] => Except.ok []
  | row :: rest =>
    exBind (transformRow row) (fun recs =>
    exBind (transform_wide_to_long rest) (fun restRecs =>
    Except.ok (recs ++ restRecs)))

/-! ## Filter-aggregate engine (`update_dashboard`, app.py lines 745-903) -/

/-- The four KPI sums of app.py lines 770-773. -/
structure KPITotals where
  total_posts : ℚ
  total_interactions : ℚ
  total_views : ℚ
  followers_gained : ℚ
deriving Repr, DecidableEq

/-- The sequential filter application of app.py lines 762-767: each of the
three filters narrows the frame only when its selected value is not
"All". -/
def applyFilters (f : FilterSelection) (rs : List MetricRecord) :
    List MetricRecord :=
  let rs1 := if f.district != "All"
    then rs.filter (fun r => r.district == f.district) else rs
  let rs2 := if f.month != "All"
    then rs1.filter (fun r => r.month == f.month) else rs1
  if f.platform != "All"
    then rs2.filter (fun r => r.platform == f.platform) else rs2

/-- The KPI sums of app.py lines 770-773: plain column sums over a record
list (pandas sums an empty numeric column to 0, as `List.sum [] = 0`). -/
def kpiTotals (rs : List MetricRecord) : KPITotals :=
  { total_posts := (rs.map (fun r => r.total_posts)).sum
    total_interactions := (rs.map (fun r => r.total_interactions)).sum
    total_views := (rs.map (fun r => r.total_views)).sum
    followers_gained := (rs.map (fun r => r.followers_gained)).sum }

/-- The spec's record-passes predicate: for each of district/month/platform
the filter value is "All" or equals the record's field, the three
conditions ANDed (spec section 4.4). Stated to be compared with the
source's sequential `applyFilters`. -/
def specPasses (f : FilterSelection) (r : MetricRecord) : Bool :=
  ((f.district == "All" || r.district == f.district)
    && (f.month == "All" || r.month == f.month))
    && (f.platform == "All" || r.platform == f.platform)

/-- Tier classification of app.py lines 165-173: the `performance_text`
chosen from the percentage. -/
def tierOf (p : ℚ) : String :=
  if p ≥ 80 then "Excellent"
  else if p ≥ 60 then "Good"
  else "Needs Improvement"

/-- The numeric content of one platform performance card. -/
structure PlatformPerformance where
  actual_views : ℚ
  target_views : ℚ
  percentage : ℚ
  tier : String
deriving Repr, DecidableEq

/-- The function `platform_progress_card` (app.py lines 159-173), numeric part: the
target tie-break, the guarded percentage, and the tier. -/
def platform_progress_card (actual_views target_views : ℚ) :
    PlatformPerformance :=
  let target_views :=
    if actual_views ≥ target_views then actual_views + 1000 else target_views
  let percentage :=
    if target_views > 0 then min 100 ((actual_views / target_views) * 100)
    else 0
  { actual_views := actual_views
    target_views := target_views
    percentage := percentage
    tier := tierOf percentage }

/-- The constant `TARGET_VIEWS_PER_POST` (app.py line 815). -/
def TARGET_VIEWS_PER_POST : ℚ := 2500

/-- The list `platforms_to_show` (app.py line 817). -/
def platforms_to_show : List String :=
  ["Facebook", "Instagram", "YouTube", "WhatsApp"]

/-- The per-platform card computation of app.py lines 819-839: restrict the
filtered frame to the platform; a non-empty sub-subset gets target
`posts-sum * 2500`, an empty one the fixed arguments (0, 1000). -/
def platformCard (filtered : List MetricRecord) (platform : String) :
    PlatformPerformance :=
  let platform_data := filtered.filter (fun r => r.platform == platform)
  if platform_data.isEmpty then
    platform_progress_card 0 1000
  else
    let total_posts := (platform_data.map (fun r => r.total_posts)).sum
    let actual_views := (platform_data.map (fun r => r.total_views)).sum
    let target_views := total_posts * TARGET_VIEWS_PER_POST
    platform_progress_card actual_views target_views

/-- The spec's description of one platform performance entry (spec section
4.4), computed from the platform sub-subset: actual is the views sum (0 if
empty), target is the posts sum times 2500 with the minimum 1000 for an
empty sub-subset, then the tie-break, then the guarded percentage. Stated
to be compared with the source's `platformCard`. -/
def specPerformance (sub : List MetricRecord) : PlatformPerformance :=
  let actual_views := (sub.map (fun r => r.total_views)).sum
  let base_target :=
    if sub.isEmpty then 1000
    else (sub.map (fun r => r.total_posts)).sum * 2500
  let target_views :=
    if actual_views ≥ base_target then actual_views + 1000 else base_target
  let percentage :=
    if target_views > 0 then min 100 ((actual_views / target_views) * 100)
    else 0
  { actual_views := actual_views
    target_views := target_views
    percentage := percentage
    tier := tierOf percentage }

/-- The engine-relevant output of `update_dashboard`: the KPI totals (none
on the no-data early return of app.py lines 746-756) and the platform
cards (none when the filtered frame is empty, app.py lines 814 and
861-862). -/
structure DashboardView where
  kpis : Option KPITotals
  cards : Option (List PlatformPerformance)
deriving Repr, DecidableEq

/-- The callback `update_dashboard` (app.py lines 745-903), engine part: early return
when the stored data is empty; otherwise filter, sum the KPIs, and build
one card per fixed platform only when the filtered frame is non-empty. -/
def update_dashboard (f : FilterSelection) (records : List MetricRecord) :
    DashboardView :=
  if records.isEmpty then
    { kpis := none, cards := none }
  else
    let filtered := applyFilters f records
    { kpis := some (kpiTotals filtered)
      cards :=
        if filtered.isEmpty then none
        else some (platforms_to_show.map (platformCard filtered)) }

/-! ## District-code derivation (`update_district_buttons`, app.py lines
686-697) -/

/-- Python's `str.upper` restricted to ASCII input: uppercase every
character. -/
def pyUpper (s : String) : String := ⟨s.data.map Char.toUpper⟩

/-- Python's slice `s[:n]`: the first `n` characters. -/
def pyTake (s : String) (n : Nat) : String := ⟨s.data.take n⟩

/-- Worker for `pySplit`: walk the characters, accumulating the current
word reversed; whitespace closes a word, runs of whitespace and edge
whitespace produce no empty words. -/
def wordsAux : List Char → List Char → List (List Char)
  | [], cur => if cur.isEmpty then [] else [cur.reverse]
  | c :: rest, cur =>
    if c.isWhitespace then
      if cur.isEmpty then wordsAux rest [] else cur.reverse :: wordsAux rest []
    else wordsAux rest (c :: cur)

/-- Python's no-argument `str.split`: split on whitespace runs, dropping
empty pieces. -/
def pySplit (s : String) : List String := (wordsAux s.data []).map (fun l => ⟨l⟩)

/-- The district-code rules of app.py lines 686-697, first match winning:
"State Entry" is hard-coded to "ST"; a name of at most 3 characters is
uppercased whole; a multi-word name becomes the uppercased initials
(`''.join(word[0] for word in words).upper()`); any other name its first
three characters uppercased. -/
def district_code (district : String) : String :=
  if district = "State Entry" then "ST"
  else if district.length ≤ 3 then pyUpper district
  else
    let words := pySplit district
    if words.length > 1 then
      pyUpper (String.join (words.map (fun w => pyTake w 1)))
    else
      pyUpper (pyTake district 3)

/-! ## Concrete example data

The scenario row of the spec (District "Kochi", Month "May", Facebook
posts 10 / interactions 200 / views 1000, everything else zero), plus
variants exercising the edge behaviour of the Normalizer. -/

/-- The spec's scenario row, with every column label present. -/
def sampleRow : RawWideRow :=
  { strCells := [("Month", "May"), ("District  ", "Kochi")]
    numCells :=
      [("Facebook - Total Posts ", 10), ("Facebook - Total Interactions ", 200),
       ("Facebook - Total Views  ", 1000), ("Facebook - Followers Gained  ", 0),
       ("Instagram - Total Posts  ", 0), ("Instagram - Total Interactions  ", 0),
       ("Instagram - Total Views  ", 0), ("Instagram - Followers Gained  ", 0),
       ("YouTube - Total Posts  ", 0), ("YouTube - Total Interactions  ", 0),
       ("YouTube - Total Views  ", 0), ("YouTube - Followers Gained  ", 0),
       ("WhatsApp - Total Posts  ", 0), ("WhatsApp - Total Interactions  ", 0),
       ("WhatsApp - Total Views  ", 0), ("WhatsApp - Followers Gained  ", 0)] }

/-- The Facebook record `sampleRow` normalizes to. -/
def fbRec : MetricRecord :=
  { month := "May", district := "Kochi", platform := "Facebook"
    total_posts := 10, total_interactions := 200, total_views := 1000
    followers_gained := 0, engagement_rate := 20 }

/-- The all-zero record `sampleRow` normalizes to for platform `p`. -/
def zeroRec (p : String) : MetricRecord :=
  { month := "May", district := "Kochi", platform := p
    total_posts := 0, total_interactions := 0, total_views := 0
    followers_gained := 0, engagement_rate := 0 }

/-- Variant of `sampleRow` with a negative Facebook posts cell: the sheet can deliver
a negative number and the source applies no coercion to it. -/
def negRow : RawWideRow :=
  { strCells := [("Month", "May"), ("District  ", "Kochi")]
    numCells :=
      [("Facebook - Total Posts ", -5), ("Facebook - Total Interactions ", 200),
       ("Facebook - Total Views  ", 1000), ("Facebook - Followers Gained  ", 0),
       ("Instagram - Total Posts  ", 0), ("Instagram - Total Interactions  ", 0),
       ("Instagram - Total Views  ", 0), ("Instagram - Followers Gained  ", 0),
       ("YouTube - Total Posts  ", 0), ("YouTube - Total Interactions  ", 0),
       ("YouTube - Total Views  ", 0), ("YouTube - Followers Gained  ", 0),
       ("WhatsApp - Total Posts  ", 0), ("WhatsApp - Total Interactions  ", 0),
       ("WhatsApp - Total Views  ", 0), ("WhatsApp - Followers Gained  ", 0)] }

/-- The Facebook record `negRow` normalizes to: the -5 passes through. -/
def negFbRec : MetricRecord :=
  { month := "May", district := "Kochi", platform := "Facebook"
    total_posts := -5, total_interactions := 200, total_views := 1000
    followers_gained := 0, engagement_rate := 20 }

/-- Variant of `sampleRow` without its `Facebook - Total Posts ` column. -/
def missingRow : RawWideRow :=
  { strCells := [("Month", "May"), ("District  ", "Kochi")]
    numCells :=
      [("Facebook - Total Interactions ", 200),
       ("Facebook - Total Views  ", 1000), ("Facebook - Followers Gained  ", 0),
       ("Instagram - Total Posts  ", 0), ("Instagram - Total Interactions  ", 0),
       ("Instagram - Total Views  ", 0), ("Instagram - Followers Gained  ", 0),
       ("YouTube - Total Posts  ", 0), ("YouTube - Total Interactions  ", 0),
       ("YouTube - Total Views  ", 0), ("YouTube - Followers Gained  ", 0),
       ("WhatsApp - Total Posts  ", 0), ("WhatsApp - Total Interactions  ", 0),
       ("WhatsApp - Total Views  ", 0), ("WhatsApp - Followers Gained  ", 0)] }

/-! ## Helper lemmas -/

theorem filter_stage_eq (sel : String) (proj : MetricRecord → String)
    (rs : List MetricRecord) :
    (if sel != "All" then rs.filter (fun r => proj r == sel) else rs)
      = rs.filter (fun r => sel == "All" || proj r == sel) := by
  by_cases h : sel = "All"
  · subst h
    simp
  · have h1 : (sel != "All") = true := by simp [h]
    have h2 : (sel == "All") = false := by simp [h]
    simp [h1, h2]

theorem applyFilters_eq_filter (f : FilterSelection) (rs : List MetricRecord) :
    applyFilters f rs = rs.filter (specPasses f) := by
  simp only [applyFilters]
  rw [filter_stage_eq f.district (fun r => r.district) rs]
  rw [filter_stage_eq f.month (fun r => r.month)]
  rw [filter_stage_eq f.platform (fun r => r.platform)]
  rw [List.filter_filter, List.filter_filter]
  refine List.filter_congr (fun r _ => ?_)
  simp only [specPasses]
  cases hd : (f.district == "All" || r.district == f.district) <;>
    cases hm : (f.month == "All" || r.month == f.month) <;>
      cases hp : (f.platform == "All" || r.platform == f.platform) <;> rfl

theorem specPasses_all (r : MetricRecord) :
    specPasses ⟨"All", "All", "All"⟩ r = true := rfl

/-! ## Claims about the filter-aggregate engine -/

/-- C1: for every record set and filter selection, the KPI totals are the
field sums over exactly the records passing the spec's ANDed
all-or-equal conditions; an empty passing subset yields all-zero totals;
the all-"All" selection reproduces the unfiltered sums. -/
theorem kpi_totals_correct (rs : List MetricRecord) (f : FilterSelection) :
    applyFilters f rs = rs.filter (specPasses f)
    ∧ (rs.filter (specPasses f) = [] →
        kpiTotals (applyFilters f rs) = ⟨0, 0, 0, 0⟩)
    ∧ kpiTotals (applyFilters ⟨"All", "All", "All"⟩ rs) = kpiTotals rs := by
  refine ⟨applyFilters_eq_filter f rs, ?_, ?_⟩
  · intro h
    rw [applyFilters_eq_filter, h]
    rfl
  · rw [applyFilters_eq_filter]
    have hall : rs.filter (specPasses ⟨"All", "All", "All"⟩) = rs := by
      rw [List.filter_congr (fun r _ => specPasses_all r)]
      exact List.filter_true rs
    rw [hall]

/-- Witness for C1: a concrete selection matching no record yields
all-zero totals. -/
theorem kpi_totals_correct_witness :
    kpiTotals (applyFilters ⟨"X", "All", "All"⟩ [fbRec]) = ⟨0, 0, 0, 0⟩ :=
  (kpi_totals_correct [fbRec] ⟨"X", "All", "All"⟩).2.1 (by rfl)

/-- C2: the per-platform card of `update_dashboard` equals the spec's
description computed from the platform sub-subset: actual is the views
sum, target is the posts sum times 2500 with minimum 1000 for an empty
sub-subset, the tie-break is applied after that substitution, and the
percentage is the guarded `min 100` formula. -/
theorem platform_performance_correct (filtered : List MetricRecord)
    (p : String) :
    platformCard filtered p
      = specPerformance (filtered.filter (fun r => r.platform == p)) := by
  simp only [platformCard, specPerformance, TARGET_VIEWS_PER_POST]
  by_cases h : (filtered.filter (fun r => r.platform == p)).isEmpty
  · rw [if_pos h, if_pos h]
    rw [List.isEmpty_iff.mp h]
    rfl
  · rw [if_neg h, if_neg h]
    rfl

/-- C8: with non-negative inputs, after the tie-break the target is
strictly positive and strictly above the actual views, so the
`target_views > 0` guard's else-branch is unreachable (the percentage is
always the `min 100` formula) and the percentage never exceeds 100. -/
theorem target_guarantee (a t : ℚ) (ha : 0 ≤ a) (_hb : 0 ≤ t) :
    0 < (platform_progress_card a t).target_views
    ∧ (platform_progress_card a t).actual_views
        < (platform_progress_card a t).target_views
    ∧ (platform_progress_card a t).percentage
        = min 100 ((platform_progress_card a t).actual_views
            / (platform_progress_card a t).target_views * 100)
    ∧ (platform_progress_card a t).percentage ≤ 100 := by
  simp only [platform_progress_card]
  by_cases h : a ≥ t
  · have hpos : (0 : ℚ) < a + 1000 := by linarith
    rw [if_pos h]
    rw [if_pos hpos]
    exact ⟨hpos, by linarith, rfl, min_le_left _ _⟩
  · have hpos : (0 : ℚ) < t := lt_of_le_of_lt ha (lt_of_not_ge h)
    rw [if_neg h]
    rw [if_pos hpos]
    exact ⟨hpos, lt_of_not_ge h, rfl, min_le_left _ _⟩

/-- Witness for C8 at the minimum-target inputs (0, 1000). -/
theorem target_guarantee_witness :
    0 < (platform_progress_card 0 1000).target_views
    ∧ (platform_progress_card 0 1000).actual_views
        < (platform_progress_card 0 1000).target_views
    ∧ (platform_progress_card 0 1000).percentage
        = min 100 ((platform_progress_card 0 1000).actual_views
            / (platform_progress_card 0 1000).target_views * 100)
    ∧ (platform_progress_card 0 1000).percentage ≤ 100 :=
  target_guarantee 0 1000 (by norm_num) (by norm_num)

/-- C9: the tier classification maps a percentage to "Excellent" iff it is
at least 80, to "Good" iff it is at least 60 and below 80, and to
"Needs Improvement" iff it is below 60; both boundaries belong to the
higher tier. -/
theorem tier_classification (p : ℚ) :
    (tierOf p = "Excellent" ↔ 80 ≤ p)
    ∧ (tierOf p = "Good" ↔ 60 ≤ p ∧ p < 80)
    ∧ (tierOf p = "Needs Improvement" ↔ p < 60) := by
  simp only [tierOf]
  by_cases h80 : (80 : ℚ) ≤ p
  · rw [if_pos h80]
    refine ⟨by simp [h80], ?_, ?_⟩
    · simp only [show ("Excellent" = "Good") = False by simp, false_iff]
      intro hc
      linarith [hc.2]
    · simp only [show ("Excellent" = "Needs Improvement") = False by simp,
        false_iff]
      intro hc
      linarith
  · rw [if_neg h80]
    by_cases h60 : (60 : ℚ) ≤ p
    · rw [if_pos h60]
      refine ⟨?_, ?_, ?_⟩
      · simp only [show ("Good" = "Excellent") = False by simp, false_iff]
        exact h80
      · simp [h60, lt_of_not_ge h80]
      · simp only [show ("Good" = "Needs Improvement") = False by simp,
          false_iff]
        intro hc
        linarith
    · rw [if_neg h60]
      refine ⟨?_, ?_, ?_⟩
      · simp only [show ("Needs Improvement" = "Excellent") = False by simp,
          false_iff]
        exact h80
      · simp only [show ("Needs Improvement" = "Good") = False by simp,
          false_iff]
        intro hc
        exact h60 hc.1
      · simp [lt_of_not_ge h60]

/-! ## Normalizer inversion lemmas -/

theorem exBind_eq_ok {α β : Type} {x : Except String α}
    {f : α → Except String β} {b : β} (h : exBind x f = Except.ok b) :
    ∃ a, x = Except.ok a ∧ f a = Except.ok b := by
  cases x with
  | error e => simp [exBind] at h
  | ok a => exact ⟨a, rfl, h⟩

theorem makeRecord_ok {row : RawWideRow} {cols : PlatformCols}
    {r : MetricRecord} (h : makeRecord row cols = Except.ok r) :
    ∃ posts interactions views followers month district,
      getNum row cols.posts = Except.ok posts
      ∧ getNum row cols.interactions = Except.ok interactions
      ∧ getNum row cols.views = Except.ok views
      ∧ getNum row cols.followers = Except.ok followers
      ∧ getStr row "Month" = Except.ok month
      ∧ getStr row "District  " = Except.ok district
      ∧ r = { month := month, district := district, platform := cols.name,
              total_posts := posts, total_interactions := interactions,
              total_views := views, followers_gained := followers,
              engagement_rate :=
                if views > 0 then interactions / views * 100 else 0 } := by
  unfold makeRecord at h
  obtain ⟨posts, h1, h⟩ := exBind_eq_ok h
  dsimp only at h
  obtain ⟨interactions, h2, h⟩ := exBind_eq_ok h
  obtain ⟨views, h3, h⟩ := exBind_eq_ok h
  obtain ⟨followers, h4, h⟩ := exBind_eq_ok h
  obtain ⟨month, h5, h⟩ := exBind_eq_ok h
  obtain ⟨district, h6, h⟩ := exBind_eq_ok h
  injection h with h
  exact ⟨posts, interactions, views, followers, month, district,
    h1, h2, h3, h4, h5, h6, h.symm⟩

theorem transformRow_ok {row : RawWideRow} {recs : List MetricRecord}
    (h : transformRow row = Except.ok recs) :
    ∃ r1 r2 r3 r4,
      makeRecord row facebookCols = Except.ok r1
      ∧ makeRecord row instagramCols = Except.ok r2
      ∧ makeRecord row youtubeCols = Except.ok r3
      ∧ makeRecord row whatsappCols = Except.ok r4
      ∧ recs = [r1, r2, r3, r4] := by
  unfold transformRow at h
  obtain ⟨r1, h1, h⟩ := exBind_eq_ok h
  obtain ⟨r2, h2, h⟩ := exBind_eq_ok h
  obtain ⟨r3, h3, h⟩ := exBind_eq_ok h
  obtain ⟨r4, h4, h⟩ := exBind_eq_ok h
  injection h with h
  exact ⟨r1, r2, r3, r4, h1, h2, h3, h4, h.symm⟩

theorem transform_cons_ok {row : RawWideRow} {rest : List RawWideRow}
    {out : List MetricRecord}
    (h : transform_wide_to_long (row :: rest) = Except.ok out) :
    ∃ recs restRecs, transformRow row = Except.ok recs
      ∧ transform_wide_to_long rest = Except.ok restRecs
      ∧ out = recs ++ restRecs := by
  unfold transform_wide_to_long at h
  obtain ⟨recs, h1, h⟩ := exBind_eq_ok h
  obtain ⟨restRecs, h2, h⟩ := exBind_eq_ok h
  injection h with h
  exact ⟨recs, restRecs, h1, h2, h.symm⟩

theorem transform_length {rows : List RawWideRow} {out : List MetricRecord}
    (h : transform_wide_to_long rows = Except.ok out) :
    out.length = 4 * rows.length := by
  induction rows generalizing out with
  | nil =>
    unfold transform_wide_to_long at h
    injection h with h
    simp [← h]
  | cons row rest ih =>
    obtain ⟨recs, restRecs, h1, h2, rfl⟩ := transform_cons_ok h
    obtain ⟨r1, r2, r3, r4, _, _, _, _, rfl⟩ := transformRow_ok h1
    simp only [List.length_append, List.length_cons, List.length_nil, ih h2]
    ring

theorem transform_mem {rows : List RawWideRow} {out : List MetricRecord}
    {r : MetricRecord} (h : transform_wide_to_long rows = Except.ok out)
    (hr : r ∈ out) :
    ∃ row, row ∈ rows
      ∧ ∃ cols, cols ∈ platform_columns ∧ makeRecord row cols = Except.ok r := by
  induction rows generalizing out with
  | nil =>
    unfold transform_wide_to_long at h
    injection h with h
    rw [← h] at hr
    simp at hr
  | cons row rest ih =>
    obtain ⟨recs, restRecs, h1, h2, rfl⟩ := transform_cons_ok h
    rcases List.mem_append.mp hr with hmem | hmem
    · obtain ⟨r1, r2, r3, r4, m1, m2, m3, m4, rfl⟩ := transformRow_ok h1
      simp only [List.mem_cons, List.not_mem_nil, or_false] at hmem
      refine ⟨row, List.mem_cons_self row rest, ?_⟩
      rcases hmem with rfl | rfl | rfl | rfl
      · exact ⟨facebookCols, by simp [platform_columns], m1⟩
      · exact ⟨instagramCols, by simp [platform_columns], m2⟩
      · exact ⟨youtubeCols, by simp [platform_columns], m3⟩
      · exact ⟨whatsappCols, by simp [platform_columns], m4⟩
    · obtain ⟨row', hrow', hrest⟩ := ih h2 hmem
      exact ⟨row', List.mem_cons_of_mem row hrow', hrest⟩

theorem transform_sample :
    transform_wide_to_long [sampleRow]
      = Except.ok [fbRec, zeroRec "Instagram", zeroRec "YouTube",
          zeroRec "WhatsApp"] := by
  simp [transform_wide_to_long, transformRow, makeRecord, getNum, getStr,
    lookupCell, sampleRow, facebookCols, instagramCols, youtubeCols,
    whatsappCols, fbRec, zeroRec]
  norm_num

theorem transform_platforms {rows : List RawWideRow}
    {out : List MetricRecord}
    (h : transform_wide_to_long rows = Except.ok out) :
    out.map (fun r => r.platform)
      = rows.flatMap (fun _ => platforms_to_show) := by
  induction rows generalizing out with
  | nil =>
    unfold transform_wide_to_long at h
    injection h with h
    simp [← h]
  | cons row rest ih =>
    obtain ⟨recs, restRecs, h1, h2, rfl⟩ := transform_cons_ok h
    obtain ⟨r1, r2, r3, r4, m1, m2, m3, m4, rfl⟩ := transformRow_ok h1
    obtain ⟨_, _, _, _, _, _, _, _, _, _, _, _, rfl⟩ := makeRecord_ok m1
    obtain ⟨_, _, _, _, _, _, _, _, _, _, _, _, rfl⟩ := makeRecord_ok m2
    obtain ⟨_, _, _, _, _, _, _, _, _, _, _, _, rfl⟩ := makeRecord_ok m3
    obtain ⟨_, _, _, _, _, _, _, _, _, _, _, _, rfl⟩ := makeRecord_ok m4
    simp [List.map_append, ih h2, platforms_to_show, facebookCols,
      instagramCols, youtubeCols, whatsappCols]

/-! ## Claims about the Normalizer -/

/-- C3: every record produced by the Normalizer has
`engagement_rate = interactions / views * 100` when its views are
positive and `engagement_rate = 0` when its views are zero. -/
theorem engagement_invariant {rows : List RawWideRow}
    {out : List MetricRecord}
    (h : transform_wide_to_long rows = Except.ok out)
    {r : MetricRecord} (hr : r ∈ out) :
    (0 < r.total_views →
      r.engagement_rate = r.total_interactions / r.total_views * 100)
    ∧ (r.total_views = 0 → r.engagement_rate = 0) := by
  obtain ⟨row, _, cols, _, hmk⟩ := transform_mem h hr
  obtain ⟨posts, interactions, views, followers, month, district,
    _, _, _, _, _, _, rfl⟩ := makeRecord_ok hmk
  constructor
  · intro hv
    simp only at hv ⊢
    rw [if_pos hv]
  · intro hv
    simp only at hv ⊢
    rw [hv]
    norm_num

/-- Witness for C3: the Facebook record of the scenario row. -/
theorem engagement_invariant_witness :
    (0 < fbRec.total_views →
      fbRec.engagement_rate
        = fbRec.total_interactions / fbRec.total_views * 100)
    ∧ (fbRec.total_views = 0 → fbRec.engagement_rate = 0) :=
  engagement_invariant transform_sample (by simp)

/-- C6: normalizing N wide rows yields exactly 4N records, one per
(row x platform) in the fixed platform order Facebook, Instagram,
YouTube, WhatsApp; the scenario row shows that all-zero records are
emitted rather than suppressed. -/
theorem fanout_4N :
    (∀ rows out, transform_wide_to_long rows = Except.ok out →
      out.length = 4 * rows.length)
    ∧ (∀ rows out, transform_wide_to_long rows = Except.ok out →
      out.map (fun r => r.platform) = rows.flatMap (fun _ => platforms_to_show))
    ∧ transform_wide_to_long [sampleRow]
        = Except.ok [fbRec, zeroRec "Instagram", zeroRec "YouTube",
            zeroRec "WhatsApp"] :=
  ⟨fun _ _ h => transform_length h, fun _ _ h => transform_platforms h,
    transform_sample⟩

/-- Witness for C6: the fan-out equality instantiated at the scenario
batch. -/
theorem fanout_4N_witness :
    ([fbRec, zeroRec "Instagram", zeroRec "YouTube",
        zeroRec "WhatsApp"].length : ℕ)
      = 4 * ([sampleRow] : List RawWideRow).length :=
  fanout_4N.1 [sampleRow] _ transform_sample

theorem lookupCell_mem {α : Type} {cells : List (String × α)} {label : String}
    {v : α} (h : lookupCell cells label = some v) : (label, v) ∈ cells := by
  induction cells with
  | nil => simp [lookupCell] at h
  | cons kv rest ih =>
    obtain ⟨k, w⟩ := kv
    simp only [lookupCell] at h
    by_cases hk : k = label
    · rw [if_pos hk] at h
      injection h with h
      rw [← hk, ← h]
      exact List.mem_cons_self _ _
    · rw [if_neg hk] at h
      exact List.mem_cons_of_mem _ (ih h)

theorem getNum_ok_mem {row : RawWideRow} {label : String} {v : ℚ}
    (h : getNum row label = Except.ok v) : (label, v) ∈ row.numCells := by
  unfold getNum at h
  cases hc : lookupCell row.numCells label with
  | none => rw [hc] at h; simp [cellToExcept] at h
  | some w =>
    rw [hc] at h
    injection h with h
    rw [← h]
    exact lookupCell_mem hc

theorem getNum_ok_isSome {row : RawWideRow} {label : String} {v : ℚ}
    (h : getNum row label = Except.ok v) :
    (lookupCell row.numCells label).isSome := by
  unfold getNum at h
  cases hc : lookupCell row.numCells label with
  | none => rw [hc] at h; simp [cellToExcept] at h
  | some w => simp

theorem transform_rows_ok {rows : List RawWideRow} {out : List MetricRecord}
    (h : transform_wide_to_long rows = Except.ok out) :
    ∀ row ∈ rows, ∃ recs, transformRow row = Except.ok recs := by
  induction rows generalizing out with
  | nil => intro row hrow; simp at hrow
  | cons row rest ih =>
    obtain ⟨recs, restRecs, h1, h2, rfl⟩ := transform_cons_ok h
    intro row' hrow'
    rcases List.mem_cons.mp hrow' with rfl | hmem
    · exact ⟨recs, h1⟩
    · exact ih h2 row' hmem

/-- C4 counterexample: a wide row with a negative Facebook posts cell
normalizes successfully to a record whose `total_posts` is the
uncoerced -5, so the produced records are not all non-negative. -/
theorem no_coercion_counterexample :
    transform_wide_to_long [negRow]
      = Except.ok [negFbRec, zeroRec "Instagram", zeroRec "YouTube",
          zeroRec "WhatsApp"]
    ∧ ¬ (0 ≤ negFbRec.total_posts) := by
  constructor
  · simp [transform_wide_to_long, transformRow, makeRecord, getNum, getStr,
      lookupCell, negRow, facebookCols, instagramCols, youtubeCols,
      whatsappCols, negFbRec, zeroRec]
    norm_num
  · norm_num [negFbRec]

/-- C4 (amended): the Normalizer copies metric cells verbatim, so
non-negativity holds exactly when every numeric input cell is
non-negative: if all numeric cells of every row are `≥ 0`, every produced
record's four metric fields are `≥ 0`. -/
theorem nonneg_preserved {rows : List RawWideRow} {out : List MetricRecord}
    (hpos : ∀ row ∈ rows, ∀ lv ∈ row.numCells, 0 ≤ lv.2)
    (h : transform_wide_to_long rows = Except.ok out) :
    ∀ r ∈ out, 0 ≤ r.total_posts ∧ 0 ≤ r.total_interactions
      ∧ 0 ≤ r.total_views ∧ 0 ≤ r.followers_gained := by
  intro r hr
  obtain ⟨row, hrow, cols, _, hmk⟩ := transform_mem h hr
  obtain ⟨posts, interactions, views, followers, month, district,
    h1, h2, h3, h4, _, _, rfl⟩ := makeRecord_ok hmk
  exact ⟨hpos row hrow _ (getNum_ok_mem h1),
    hpos row hrow _ (getNum_ok_mem h2),
    hpos row hrow _ (getNum_ok_mem h3),
    hpos row hrow _ (getNum_ok_mem h4)⟩

/-- Witness for the amended C4 at the scenario batch. -/
theorem nonneg_preserved_witness :
    0 ≤ fbRec.total_posts ∧ 0 ≤ fbRec.total_interactions
      ∧ 0 ≤ fbRec.total_views ∧ 0 ≤ fbRec.followers_gained := by
  refine nonneg_preserved ?_ transform_sample fbRec (by simp)
  intro row hrow lv hlv
  simp only [List.mem_singleton] at hrow
  subst hrow
  simp only [sampleRow, List.mem_cons, List.not_mem_nil, or_false] at hlv
  rcases hlv with h | h | h | h | h | h | h | h | h | h | h | h | h | h | h | h <;>
    rw [h] <;> norm_num

/-- C5 counterexample: a wide row lacking the `Facebook - Total Posts `
column makes the whole transformation fail with a `KeyError`; the field is
not substituted with zero and the batch is aborted. -/
theorem missing_column_counterexample :
    transform_wide_to_long [missingRow]
      = Except.error ("KeyError: " ++ "Facebook - Total Posts ") := by
  simp [transform_wide_to_long, transformRow, makeRecord, getNum, getStr,
    lookupCell, missingRow, facebookCols]

/-- C5 (amended): the Normalizer accepts only the single exact column
label per metric field; a missing label raises a `KeyError` that aborts
normalization of the whole batch, so a batch that normalizes successfully
had every metric label present in every row — zero is never substituted
for a missing column. -/
theorem missing_label_aborts :
    (∀ rows out, transform_wide_to_long rows = Except.ok out →
      ∀ row ∈ rows, ∀ cols ∈ platform_columns,
        (lookupCell row.numCells cols.posts).isSome
        ∧ (lookupCell row.numCells cols.interactions).isSome
        ∧ (lookupCell row.numCells cols.views).isSome
        ∧ (lookupCell row.numCells cols.followers).isSome)
    ∧ transform_wide_to_long [missingRow]
        = Except.error ("KeyError: " ++ "Facebook - Total Posts ") := by
  constructor
  · intro rows out h row hrow cols hcols
    obtain ⟨recs, hrecs⟩ := transform_rows_ok h row hrow
    obtain ⟨r1, r2, r3, r4, m1, m2, m3, m4, rfl⟩ := transformRow_ok hrecs
    have key : makeRecord row cols = Except.ok r1 ∨ makeRecord row cols = Except.ok r2
        ∨ makeRecord row cols = Except.ok r3 ∨ makeRecord row cols = Except.ok r4 := by
      simp only [platform_columns, List.mem_cons, List.not_mem_nil,
        or_false] at hcols
      rcases hcols with rfl | rfl | rfl | rfl
      · exact Or.inl m1
      · exact Or.inr (Or.inl m2)
      · exact Or.inr (Or.inr (Or.inl m3))
      · exact Or.inr (Or.inr (Or.inr m4))
    rcases key with hk | hk | hk | hk <;>
      · obtain ⟨posts, interactions, views, followers, month, district,
          h1, h2, h3, h4, _, _, _⟩ := makeRecord_ok hk
        exact ⟨getNum_ok_isSome h1, getNum_ok_isSome h2,
          getNum_ok_isSome h3, getNum_ok_isSome h4⟩
  · simp [transform_wide_to_long, transformRow, makeRecord, getNum, getStr,
      lookupCell, missingRow, facebookCols]

/-- Witness for the amended C5 at the scenario batch and Facebook
column group. -/
theorem missing_label_aborts_witness :
    (lookupCell sampleRow.numCells facebookCols.posts).isSome
    ∧ (lookupCell sampleRow.numCells facebookCols.interactions).isSome
    ∧ (lookupCell sampleRow.numCells facebookCols.views).isSome
    ∧ (lookupCell sampleRow.numCells facebookCols.followers).isSome :=
  missing_label_aborts.1 [sampleRow] _ transform_sample sampleRow (by simp)
    facebookCols (by simp [platform_columns])

/-- C7 counterexample: an empty record set takes the no-data early return
(no KPI totals, no platform entries), and a selection matching zero
records over a non-empty set yields zero totals but a no-data placeholder
instead of four minimum-target `PlatformPerformance` entries. -/
theorem empty_aggregate_counterexample :
    update_dashboard ⟨"All", "All", "All"⟩ [] =
      { kpis := none, cards := none }
    ∧ update_dashboard ⟨"X", "All", "All"⟩ [fbRec] =
      { kpis := some ⟨0, 0, 0, 0⟩, cards := none } := by
  constructor
  · rfl
  · rfl

/-- C7 (amended): filtering a non-empty record set down to zero records
yields all-zero KPI totals with no platform cards (a no-data placeholder);
the four-entry minimum-target output (actual 0, target 1000, percentage 0,
tier "Needs Improvement") arises per platform only when the filtered
frame is non-empty but the platform's sub-subset is empty; an entirely
empty record set short-circuits to the no-data view without totals. -/
theorem empty_filter_result (f : FilterSelection) (records : List MetricRecord)
    (hne : records ≠ []) (hempty : applyFilters f records = [])
    (filtered : List MetricRecord) (p : String)
    (hp : filtered.filter (fun r => r.platform == p) = []) :
    update_dashboard f records = { kpis := some ⟨0, 0, 0, 0⟩, cards := none }
    ∧ platformCard filtered p = ⟨0, 1000, 0, "Needs Improvement"⟩
    ∧ update_dashboard f [] = { kpis := none, cards := none } := by
  refine ⟨?_, ?_, rfl⟩
  · unfold update_dashboard
    rw [if_neg (by simp [hne])]
    rw [hempty]
    rfl
  · unfold platformCard
    rw [hp]
    have h1 : ¬ ((0 : ℚ) ≥ 1000) := by norm_num
    have h2 : ((1000 : ℚ) > 0) := by norm_num
    simp only [List.isEmpty_nil, if_pos, platform_progress_card, if_neg h1,
      if_pos h2, tierOf]
    norm_num

/-- Witness for the amended C7: a concrete zero-matching selection over a
one-record set, and the Facebook card over an empty frame. -/
theorem empty_filter_result_witness :
    update_dashboard ⟨"X", "All", "All"⟩ [fbRec]
        = { kpis := some ⟨0, 0, 0, 0⟩, cards := none }
    ∧ platformCard [] "Facebook" = ⟨0, 1000, 0, "Needs Improvement"⟩
    ∧ update_dashboard ⟨"X", "All", "All"⟩ [] =
        { kpis := none, cards := none } :=
  empty_filter_result ⟨"X", "All", "All"⟩ [fbRec] (by simp) (by rfl) [] "Facebook"
    (by rfl)

/-! ## Claims about the district-code derivation -/

/-- C10 counterexample: the code only special-cases "State Entry"; the
other aggregate label "Unknown" falls through to the first-3-characters
rule and gets the 3-letter code "UNK", not a fixed 2-letter sentinel. -/
theorem unknown_code_counterexample :
    district_code "Unknown" = "UNK"
    ∧ ("UNK" : String).length ≠ 2 := by
  constructor
  · decide
  · decide

/-- C10 (amended): the derivation applies, in order with the first match
winning: only "State Entry" is reserved (code "ST"); a name of at most
3 characters is uppercased whole; a longer multi-word name becomes its
uppercased initials; any other name its first three characters
uppercased — so "Kozhikode North" gives "KN", "Goa" gives "GOA",
"Thrissur" gives "THR", and "Unknown" gives "UNK" rather than a 2-letter
sentinel. -/
theorem district_code_rules (d : String) :
    (d = "State Entry" → district_code d = "ST")
    ∧ (d ≠ "State Entry" → d.length ≤ 3 → district_code d = pyUpper d)
    ∧ (d ≠ "State Entry" → 3 < d.length → 1 < (pySplit d).length →
        district_code d
          = pyUpper (String.join ((pySplit d).map (fun w => pyTake w 1))))
    ∧ (d ≠ "State Entry" → 3 < d.length → ¬ 1 < (pySplit d).length →
        district_code d = pyUpper (pyTake d 3))
    ∧ district_code "Kozhikode North" = "KN"
    ∧ district_code "Goa" = "GOA"
    ∧ district_code "Thrissur" = "THR"
    ∧ district_code "Unknown" = "UNK" := by
  refine ⟨?_, ?_, ?_, ?_, by decide, by decide, by decide, by decide⟩
  · intro hd
    rw [district_code, if_pos hd]
  · intro hd hlen
    rw [district_code, if_neg hd, if_pos hlen]
  · intro hd hlen hwords
    rw [district_code, if_neg hd, if_neg (not_le.mpr hlen), if_pos hwords]
  · intro hd hlen hwords
    rw [district_code, if_neg hd, if_neg (not_le.mpr hlen), if_neg hwords]

/-- Witness for the amended C10: the short-name rule at "Goa". -/
theorem district_code_rules_witness : district_code "Goa" = pyUpper "Goa" :=
  (district_code_rules "Goa").2.1 (by decide) (by decide)

/-- Witness for C2: the card equality at a concrete one-record frame. -/
theorem platform_performance_correct_witness :
    platformCard [fbRec] "Facebook"
      = specPerformance ([fbRec].filter (fun r => r.platform == "Facebook")) :=
  platform_performance_correct [fbRec] "Facebook"

/-- Witness for C9: the boundary percentage 80 is classified
"Excellent". -/
theorem tier_classification_witness : tierOf 80 = "Excellent" :=
  (tier_classification 80).1.mpr (by norm_num)
